import Mathlib

/-!
Verification of the salon profit-planner derivation engine and its
surrounding stores, embedded shallowly from the Python source
(`app.py`, `utils.py`, `database.py`).  Monetary amounts and
percentages are modelled as rationals; the engine's in-place mutation
of the session state is modelled by explicit state passing: the
embedding of `calculate_core_values` returns the metrics together with
the updated session state.
-/

namespace Salon

/-- A stylist row, `{'name': ..., 'sales': ..., 'guarantee': ...}` in
`st.session_state.stylists`.  Sales and guarantee are weekly figures. -/
structure Stylist where
  name : String
  sales : ℚ
  guarantee : ℚ

/-- A trainee or receptionist row, `{'name': ..., 'wage': ...}`. -/
structure WageEarner where
  name : String
  wage : ℚ

/-- The closed 17-key `fixed_costs` mapping (monthly amounts). -/
structure FixedCosts where
  rent : ℚ
  ratesRefuseBid : ℚ
  waterSewerage : ℚ
  rAndR : ℚ
  utilities : ℚ
  telephone : ℚ
  insurance : ℚ
  cleaningLaundry : ℚ
  cardFees : ℚ
  stationeryPrinting : ℚ
  advertisingBudget : ℚ
  prPromotionsBudget : ℚ
  sundries : ℚ
  legalProfAccountancy : ℚ
  bankCharges : ℚ
  other1 : ℚ
  other2 : ℚ

/-- `sum(st.session_state.fixed_costs.values())`. -/
def FixedCosts.total (fc : FixedCosts) : ℚ :=
  fc.rent + fc.ratesRefuseBid + fc.waterSewerage + fc.rAndR + fc.utilities +
    fc.telephone + fc.insurance + fc.cleaningLaundry + fc.cardFees +
    fc.stationeryPrinting + fc.advertisingBudget + fc.prPromotionsBudget +
    fc.sundries + fc.legalProfAccountancy + fc.bankCharges + fc.other1 + fc.other2

/-- The closed 5-key `variable_costs_percentages` mapping.  The first two
entries are recomputed by the engine on every call; the last three are
user-editable. -/
structure VariableCostPercentages where
  wagesSalaries : ℚ
  retailCommission : ℚ
  professionalStock : ℚ
  retailStock : ℚ
  royalties : ℚ

/-- The `salary_settings` mapping. -/
structure SalarySettings where
  service_commission_percentage : ℚ
  retail_commission_percentage : ℚ
  national_insurance_percentage : ℚ
  pension_contribution_percentage : ℚ

/-- The closed 6-key `additional_income` mapping (monthly amounts). -/
structure AdditionalIncome where
  marketingSupport : ℚ
  retroPayments : ℚ
  trainingIncome : ℚ
  rentalIncome : ℚ
  other1 : ℚ
  other2 : ℚ

/-- `sum(st.session_state.additional_income.values())`. -/
def AdditionalIncome.total (ai : AdditionalIncome) : ℚ :=
  ai.marketingSupport + ai.retroPayments + ai.trainingIncome + ai.rentalIncome +
    ai.other1 + ai.other2

/-- The session-state fields read (and, for
`variable_costs_percentages`, written) by `calculate_core_values`:
the full Input Snapshot. -/
structure SessionState where
  stylists : List Stylist
  retail_percentage : ℚ
  fixed_costs : FixedCosts
  variable_costs_percentages : VariableCostPercentages
  salary_settings : SalarySettings
  trainees : List WageEarner
  receptionists : List WageEarner
  additional_income : AdditionalIncome

/-- The monthly variable-cost breakdown built by the engine's final loop. -/
structure VariableCosts where
  wagesSalaries : ℚ
  retailCommission : ℚ
  professionalStock : ℚ
  retailStock : ℚ
  royalties : ℚ

/-- Sum of the 5 entries of the breakdown (`total_variable_costs`
accumulated by the loop). -/
def VariableCosts.total (vc : VariableCosts) : ℚ :=
  vc.wagesSalaries + vc.retailCommission + vc.professionalStock +
    vc.retailStock + vc.royalties

/-- The dictionary returned by `calculate_core_values`, field for field. -/
structure CoreValues where
  weekly_service_sales : ℚ
  weekly_retail_sales : ℚ
  weekly_total_sales : ℚ
  weekly_salary_cost : ℚ
  weekly_stylist_salary_cost : ℚ
  weekly_trainee_salary_cost : ℚ
  weekly_receptionist_salary_cost : ℚ
  weekly_retail_commission : ℚ
  weekly_ni_cost : ℚ
  weekly_pension_cost : ℚ
  weekly_total_salary_cost : ℚ
  total_service_sales : ℚ
  retail_sales : ℚ
  monthly_service_retail_sales : ℚ
  total_additional_income : ℚ
  total_sales : ℚ
  total_fixed_costs : ℚ
  total_variable_costs : ℚ
  profit : ℚ
  profit_margin : ℚ
  variable_costs : VariableCosts
  total_salary_cost : ℚ
  monthly_retail_commission : ℚ
  total_wage_cost_percentage : ℚ

/-- `weekly_to_monthly = 52/12`, the exact conversion factor. -/
def weekly_to_monthly : ℚ := 52 / 12

/-- One stylist's `service_commission_amount`
(`weekly_stylist_sales * (service_commission_percentage / 100)`). -/
def stylistServiceCommission (service_commission_percentage : ℚ) (s : Stylist) : ℚ :=
  s.sales * (service_commission_percentage / 100)

/-- One stylist's `stylist_retail_sales_weekly`: the aggregate weekly
retail sales apportioned by the stylist's share of service sales, 0 when
`weekly_service_sales` is not positive. -/
def stylistRetailShare (weekly_service_sales retail_sales_weekly : ℚ)
    (s : Stylist) : ℚ :=
  if weekly_service_sales > 0 then
    retail_sales_weekly * (s.sales / weekly_service_sales)
  else 0

/-- One stylist's `retail_commission_amount`. -/
def stylistRetailCommission (weekly_service_sales retail_sales_weekly
    retail_commission_percentage : ℚ) (s : Stylist) : ℚ :=
  stylistRetailShare weekly_service_sales retail_sales_weekly s *
    (retail_commission_percentage / 100)

/-- One stylist's `service_earnings`:
`max(stylist_guarantee, service_commission_amount)`. -/
def stylistServiceEarnings (service_commission_percentage : ℚ) (s : Stylist) : ℚ :=
  max s.guarantee (stylistServiceCommission service_commission_percentage s)

/-- One stylist's `total_earnings`: service earnings plus retail
commission. -/
def stylistTotalEarnings (weekly_service_sales retail_sales_weekly
    service_commission_percentage retail_commission_percentage : ℚ)
    (s : Stylist) : ℚ :=
  stylistServiceEarnings service_commission_percentage s +
    stylistRetailCommission weekly_service_sales retail_sales_weekly
      retail_commission_percentage s

/-- Embedding of `calculate_core_values` (app.py).  The Python function
reads `st.session_state` and mutates
`st.session_state.variable_costs_percentages` in place; here the updated
session state is returned alongside the metrics dictionary. -/
def calculate_core_values (st : SessionState) : CoreValues × SessionState :=
  let weekly_service_sales := (st.stylists.map (·.sales)).sum
  let retail_percentage := st.retail_percentage
  let weekly_retail_sales := weekly_service_sales * (retail_percentage / 100)
  let weekly_total_sales := weekly_service_sales + weekly_retail_sales
  let total_service_sales := weekly_service_sales * weekly_to_monthly
  let retail_sales := weekly_retail_sales * weekly_to_monthly
  let total_additional_income := st.additional_income.total
  let monthly_service_retail_sales := weekly_total_sales * weekly_to_monthly
  let total_sales := monthly_service_retail_sales + total_additional_income
  let total_fixed_costs := st.fixed_costs.total
  let scp := st.salary_settings.service_commission_percentage
  let rcp := st.salary_settings.retail_commission_percentage
  let nip := st.salary_settings.national_insurance_percentage
  let pcp := st.salary_settings.pension_contribution_percentage
  let retail_sales_weekly := retail_sales / weekly_to_monthly
  let stylist_weekly_salary_cost :=
    (st.stylists.map
      (stylistTotalEarnings weekly_service_sales retail_sales_weekly scp rcp)).sum
  let total_weekly_retail_commission :=
    (st.stylists.map
      (stylistRetailCommission weekly_service_sales retail_sales_weekly rcp)).sum
  let trainee_weekly_salary_cost := (st.trainees.map (·.wage)).sum
  let receptionist_weekly_salary_cost := (st.receptionists.map (·.wage)).sum
  let total_weekly_salary_cost :=
    stylist_weekly_salary_cost + trainee_weekly_salary_cost +
      receptionist_weekly_salary_cost
  let national_insurance_cost := total_weekly_salary_cost * (nip / 100)
  let pension_contribution_cost := total_weekly_salary_cost * (pcp / 100)
  let total_additional_costs := national_insurance_cost + pension_contribution_cost
  let grand_total_weekly_cost := total_weekly_salary_cost + total_additional_costs
  let total_salary_cost := grand_total_weekly_cost * weekly_to_monthly
  let monthly_retail_commission := total_weekly_retail_commission * weekly_to_monthly
  let vcp0 := st.variable_costs_percentages
  let vcp1 :=
    if total_sales > 0 then
      { vcp0 with wagesSalaries :=
          (total_salary_cost - monthly_retail_commission) / total_sales * 100 }
    else vcp0
  let vcp2 :=
    if retail_sales > 0 then
      { vcp1 with retailCommission := monthly_retail_commission / retail_sales * 100 }
    else vcp1
  let variable_costs : VariableCosts :=
    { wagesSalaries := total_sales * (vcp2.wagesSalaries / 100)
      retailCommission := retail_sales * (vcp2.retailCommission / 100)
      professionalStock := total_service_sales * (vcp2.professionalStock / 100)
      retailStock := retail_sales * (vcp2.retailStock / 100)
      royalties := total_sales * (vcp2.royalties / 100) }
  let total_variable_costs := variable_costs.total
  let profit := total_sales - total_fixed_costs - total_variable_costs
  let profit_margin := if total_sales > 0 then profit / total_sales * 100 else 0
  (⟨weekly_service_sales, weekly_retail_sales, weekly_total_sales,
    total_weekly_salary_cost, stylist_weekly_salary_cost,
    trainee_weekly_salary_cost, receptionist_weekly_salary_cost,
    total_weekly_retail_commission, national_insurance_cost,
    pension_contribution_cost, grand_total_weekly_cost,
    total_service_sales, retail_sales, monthly_service_retail_sales,
    total_additional_income, total_sales, total_fixed_costs,
    total_variable_costs, profit, profit_margin, variable_costs,
    total_salary_cost, monthly_retail_commission,
    if total_sales > 0 then total_salary_cost / total_sales * 100 else 0⟩,
   { st with variable_costs_percentages := vcp2 })

/-- Embedding of `calculate_profit` (utils.py).  Its variable-cost loop
distinguishes only `"Retail Commission"`/`"Retail Stock"` (base: retail
sales) from every other category (base: total sales) — unlike the
engine, it has no `"Professional Stock"` case.  The five dictionary
entries are expanded in insertion order. -/
def calculate_profit (service_sales retail_percentage : ℚ)
    (fixed_costs : FixedCosts)
    (variable_costs_percentages : VariableCostPercentages) : ℚ :=
  let retail_sales := service_sales * (retail_percentage / 100)
  let total_sales := service_sales + retail_sales
  let total_fixed_costs := fixed_costs.total
  let total_variable_costs :=
    total_sales * (variable_costs_percentages.wagesSalaries / 100) +
      retail_sales * (variable_costs_percentages.retailCommission / 100) +
      total_sales * (variable_costs_percentages.professionalStock / 100) +
      retail_sales * (variable_costs_percentages.retailStock / 100) +
      total_sales * (variable_costs_percentages.royalties / 100)
  total_sales - total_fixed_costs - total_variable_costs

/-- The dictionary built by `save_state_for_undo` (app.py): the seven
session-state fields it deep-copies.  `additional_income` is not among
them. -/
structure UndoSnapshot where
  stylists : List Stylist
  retail_percentage : ℚ
  fixed_costs : FixedCosts
  variable_costs_percentages : VariableCostPercentages
  salary_settings : SalarySettings
  trainees : List WageEarner
  receptionists : List WageEarner

/-- The `current_state` dictionary captured from the session. -/
def undoSnapshotOf (st : SessionState) : UndoSnapshot :=
  ⟨st.stylists, st.retail_percentage, st.fixed_costs,
    st.variable_costs_percentages, st.salary_settings, st.trainees,
    st.receptionists⟩

/-- Embedding of `save_state_for_undo` (app.py): when the stack already
holds 10 or more states, `pop(0)` drops the oldest, then the current
snapshot is appended. -/
def save_state_for_undo (stack : List UndoSnapshot) (st : SessionState) :
    List UndoSnapshot :=
  (if stack.length ≥ 10 then stack.drop 1 else stack) ++ [undoSnapshotOf st]

/-- Writing a popped `previous_state` back into the session
(`undo_last_change`'s restore block): the seven captured fields are
overwritten, every other session field keeps its current value. -/
def restoreSnapshot (sn : UndoSnapshot) (st : SessionState) : SessionState :=
  { st with stylists := sn.stylists
            retail_percentage := sn.retail_percentage
            fixed_costs := sn.fixed_costs
            variable_costs_percentages := sn.variable_costs_percentages
            salary_settings := sn.salary_settings
            trainees := sn.trainees
            receptionists := sn.receptionists }

/-- Embedding of `undo_last_change` (app.py): if the stack is nonempty,
`pop()` removes its most recent entry, the session is restored from it
and `True` is returned; on an empty stack nothing changes and `False`
is returned. -/
def undo_last_change (stack : List UndoSnapshot) (st : SessionState) :
    Bool × List UndoSnapshot × SessionState :=
  match stack.getLast? with
  | some previous_state =>
      (true, stack.dropLast, restoreSnapshot previous_state st)
  | none => (false, stack, st)

/-- The metrics dictionary cached inside a saved scenario
(app.py scenario save handler). -/
structure CachedMetrics where
  monthly_service_sales : ℚ
  monthly_retail_sales : ℚ
  monthly_total_sales : ℚ
  monthly_fixed_costs : ℚ
  monthly_variable_costs : ℚ
  monthly_profit : ℚ
  profit_margin : ℚ

/-- The dictionary stored in `st.session_state.scenarios[name]` by the
save handler: description, the seven copied input fields, and the
cached metrics.  `additional_income` is not among the stored fields. -/
structure ScenarioData where
  description : String
  stylist_data : List Stylist
  retail_percentage : ℚ
  trainee_data : List WageEarner
  receptionist_data : List WageEarner
  salary_settings : SalarySettings
  fixed_costs : FixedCosts
  variable_costs_percentages : VariableCostPercentages
  metrics : CachedMetrics

/-- Embedding of the scenario save handler (app.py).  The handler
copies seven input fields from the session and caches metrics from
fresh `calculate_core_values()` calls; those calls all return the same
dictionary (the inputs they read are unchanged and the two derived
percentage entries are recomputed to the same values each time), so a
single call models them. -/
def scenario_save (st : SessionState) (desc : String) : ScenarioData :=
  let m := (calculate_core_values st).1
  { description := desc
    stylist_data := st.stylists
    retail_percentage := st.retail_percentage
    trainee_data := st.trainees
    receptionist_data := st.receptionists
    salary_settings := st.salary_settings
    fixed_costs := st.fixed_costs
    variable_costs_percentages := st.variable_costs_percentages
    metrics := ⟨m.total_service_sales, m.retail_sales, m.total_sales,
      m.total_fixed_costs, m.total_variable_costs, m.profit, m.profit_margin⟩ }

/-- Embedding of the scenario load handler (app.py): the seven stored
fields are written back into the session; every other session field —
in particular `additional_income` — keeps its current value. -/
def scenario_load (sd : ScenarioData) (st : SessionState) : SessionState :=
  { st with stylists := sd.stylist_data
            retail_percentage := sd.retail_percentage
            trainees := sd.trainee_data
            receptionists := sd.receptionist_data
            salary_settings := sd.salary_settings
            fixed_costs := sd.fixed_costs
            variable_costs_percentages := sd.variable_costs_percentages }

/-- One row of the `scenarios` table (database.py); the JSON payload is
kept abstract. -/
structure ScenarioRow (α : Type) where
  user_id : ℕ
  name : String
  description : String
  data_json : α

/-- The filter `Scenario.user_id == user_id, Scenario.name == name`. -/
def scenarioMatches {α : Type} (uid : ℕ) (name : String)
    (r : ScenarioRow α) : Bool :=
  r.user_id == uid && r.name == name

/-- Updating the `.first()` matching row in place (description, payload). -/
def updateFirstScenario {α : Type} (uid : ℕ) (name desc : String) (data : α) :
    List (ScenarioRow α) → List (ScenarioRow α)
  | [] => []
  | r :: rs =>
      if scenarioMatches uid name r then
        { r with description := desc, data_json := data } :: rs
      else r :: updateFirstScenario uid name desc data rs

/-- Embedding of `save_scenario` (database.py): if a row with this
`(user_id, name)` exists it is updated; otherwise, if the user already
has 3 or more scenarios, the save is rejected and the table is left
unchanged; otherwise a new row is inserted. -/
def save_scenario {α : Type} (db : List (ScenarioRow α)) (uid : ℕ)
    (name desc : String) (data : α) : Bool × List (ScenarioRow α) :=
  if db.any (scenarioMatches uid name) then
    (true, updateFirstScenario uid name desc data db)
  else if 3 ≤ (db.filter (fun r => r.user_id == uid)).length then
    (false, db)
  else
    (true, db ++ [⟨uid, name, desc, data⟩])

/-- The number of scenario rows a user owns. -/
def ownerCount {α : Type} (db : List (ScenarioRow α)) (uid : ℕ) : ℕ :=
  (db.filter (fun r => r.user_id == uid)).length

/-- All-zero fixed costs, for concrete instances. -/
def zeroFixedCosts : FixedCosts := ⟨0, 0, 0, 0, 0, 0, 0, 0, 0, 0, 0, 0, 0, 0, 0, 0, 0⟩

/-- All-zero variable-cost percentages. -/
def zeroVCP : VariableCostPercentages := ⟨0, 0, 0, 0, 0⟩

/-- All-zero salary settings. -/
def zeroSalarySettings : SalarySettings := ⟨0, 0, 0, 0⟩

/-- All-zero additional income. -/
def zeroAdditionalIncome : AdditionalIncome := ⟨0, 0, 0, 0, 0, 0⟩

/-- The session state the app initialises for a fresh user. -/
def baseState : SessionState :=
  ⟨[⟨"Stylist 1", 0, 0⟩], 0, zeroFixedCosts, zeroVCP, zeroSalarySettings,
    [⟨"Trainee 1", 0⟩], [⟨"Reception 1", 0⟩], zeroAdditionalIncome⟩

/-- The spec's worked example input: one stylist with weekly sales 1000
and guarantee 0, retail percentage 20, service commission 40%, retail
commission 10%, NI and pension 0, no trainees or receptionists, all
fixed costs, editable variable-cost percentages and additional income
zero. -/
def c2exInput : SessionState :=
  ⟨[⟨"Stylist 1", 1000, 0⟩], 20, zeroFixedCosts, zeroVCP, ⟨40, 10, 0, 0⟩,
    [], [], zeroAdditionalIncome⟩

/-! ## General lemmas about the embedded operations -/

/-- A wage roster in which every wage is 0 contributes a zero sum. -/
theorem wage_sum_zero (l : List WageEarner) (h : ∀ w ∈ l, w.wage = 0) :
    (l.map (·.wage)).sum = 0 := by
  induction l with
  | nil => simp
  | cons a t ih => simp_all

/-- A stylist roster in which every weekly sales figure is 0 contributes
a zero sum. -/
theorem sales_sum_zero (l : List Stylist) (h : ∀ s ∈ l, s.sales = 0) :
    (l.map (·.sales)).sum = 0 := by
  induction l with
  | nil => simp
  | cons a t ih => simp_all

/-- Updating the first matching scenario row preserves the table length. -/
theorem updateFirstScenario_length {α : Type} (uid : ℕ) (name desc : String)
    (data : α) (l : List (ScenarioRow α)) :
    (updateFirstScenario uid name desc data l).length = l.length := by
  induction l with
  | nil => rfl
  | cons r rs ih =>
      by_cases h : scenarioMatches uid name r = true <;>
        simp [updateFirstScenario, h, ih]

/-- Updating the first matching scenario row preserves every owner's
scenario count (the update keeps the row's `user_id`). -/
theorem updateFirstScenario_ownerCount {α : Type} (uid : ℕ) (name desc : String)
    (data : α) (l : List (ScenarioRow α)) (uid' : ℕ) :
    ownerCount (updateFirstScenario uid name desc data l) uid' = ownerCount l uid' := by
  induction l with
  | nil => rfl
  | cons r rs ih =>
      by_cases h : scenarioMatches uid name r = true <;>
        by_cases h' : (r.user_id == uid') = true <;>
          simp [updateFirstScenario, ownerCount, h, h', List.filter] at ih ⊢ <;>
            simp [ih]

/-! ## The claims -/

/-- C1: on every call, `calculate_core_values` sets the
`Wages/Salaries (excluding retail commission)` percentage to
`(monthly_salary_cost − monthly_retail_commission) / total_monthly_sales × 100`
when total monthly sales are positive and leaves it unchanged otherwise,
and sets the `Retail Commission` percentage to
`monthly_retail_commission / monthly_retail_sales × 100` when monthly
retail sales are positive and leaves it unchanged otherwise. -/
theorem feedback_overwrites_derived_percentages (st : SessionState) :
    ((calculate_core_values st).1.total_sales > 0 →
      (calculate_core_values st).2.variable_costs_percentages.wagesSalaries =
        ((calculate_core_values st).1.total_salary_cost -
            (calculate_core_values st).1.monthly_retail_commission) /
          (calculate_core_values st).1.total_sales * 100) ∧
    (¬ (calculate_core_values st).1.total_sales > 0 →
      (calculate_core_values st).2.variable_costs_percentages.wagesSalaries =
        st.variable_costs_percentages.wagesSalaries) ∧
    ((calculate_core_values st).1.retail_sales > 0 →
      (calculate_core_values st).2.variable_costs_percentages.retailCommission =
        (calculate_core_values st).1.monthly_retail_commission /
          (calculate_core_values st).1.retail_sales * 100) ∧
    (¬ (calculate_core_values st).1.retail_sales > 0 →
      (calculate_core_values st).2.variable_costs_percentages.retailCommission =
        st.variable_costs_percentages.retailCommission) := by
  unfold calculate_core_values
  dsimp only
  split_ifs with h1 h2 <;> simp_all

/-- Witness for C1, exercising both positive branches: the worked
single-stylist input has positive total and retail sales, and the two
derived percentages come out as the claimed ratios. -/
theorem feedback_overwrites_derived_percentages_witness :
    (calculate_core_values c2exInput).1.total_sales > 0 ∧
    (calculate_core_values c2exInput).2.variable_costs_percentages.wagesSalaries =
      ((calculate_core_values c2exInput).1.total_salary_cost -
          (calculate_core_values c2exInput).1.monthly_retail_commission) /
        (calculate_core_values c2exInput).1.total_sales * 100 ∧
    (calculate_core_values c2exInput).1.retail_sales > 0 ∧
    (calculate_core_values c2exInput).2.variable_costs_percentages.retailCommission =
      (calculate_core_values c2exInput).1.monthly_retail_commission /
        (calculate_core_values c2exInput).1.retail_sales * 100 := by
  have hts : (calculate_core_values c2exInput).1.total_sales > 0 := by
    norm_num [calculate_core_values, c2exInput, zeroAdditionalIncome,
      AdditionalIncome.total, weekly_to_monthly]
  have hrs : (calculate_core_values c2exInput).1.retail_sales > 0 := by
    norm_num [calculate_core_values, c2exInput, zeroAdditionalIncome,
      AdditionalIncome.total, weekly_to_monthly]
  exact ⟨hts, (feedback_overwrites_derived_percentages c2exInput).1 hts, hrs,
    (feedback_overwrites_derived_percentages c2exInput).2.2.1 hrs⟩

/-- The worked example input generalised over the parts the example
fixes to zero only through their totals: arbitrary trainee and
receptionist rosters (wages all 0), arbitrary fixed costs and
variable-cost percentages. -/
def c2Input (tr rec : List WageEarner) (fc : FixedCosts)
    (vcp : VariableCostPercentages) : SessionState :=
  ⟨[⟨"Stylist 1", 1000, 0⟩], 20, fc, vcp, ⟨40, 10, 0, 0⟩, tr, rec,
    zeroAdditionalIncome⟩

/-- C2: on the single-stylist worked example (weekly sales 1000,
guarantee 0, retail 20%, service commission 40%, retail commission 10%,
NI and pension 0, all trainee and receptionist wages 0, no additional
income), the engine yields weekly retail sales 200, stylist retail
share 200, service commission 400, service earnings 400, retail
commission 20, stylist total 420, weekly salary cost 420, monthly
salary cost exactly 420 × 52/12 = 1820, total monthly sales exactly
1200 × 52/12 = 5200, and profit = 5200 − total fixed costs − total
variable costs, with the exact rational 52/12 as the only
weekly→monthly factor. -/
theorem worked_example_single_stylist (tr rec : List WageEarner)
    (fc : FixedCosts) (vcp : VariableCostPercentages)
    (htr : ∀ w ∈ tr, w.wage = 0) (hrec : ∀ w ∈ rec, w.wage = 0) :
    weekly_to_monthly = 52 / 12 ∧
    (calculate_core_values (c2Input tr rec fc vcp)).1.weekly_retail_sales = 200 ∧
    stylistRetailShare 1000 200 ⟨"Stylist 1", 1000, 0⟩ = 200 ∧
    stylistServiceCommission 40 ⟨"Stylist 1", 1000, 0⟩ = 400 ∧
    stylistServiceEarnings 40 ⟨"Stylist 1", 1000, 0⟩ = 400 ∧
    stylistRetailCommission 1000 200 10 ⟨"Stylist 1", 1000, 0⟩ = 20 ∧
    stylistTotalEarnings 1000 200 40 10 ⟨"Stylist 1", 1000, 0⟩ = 420 ∧
    (calculate_core_values (c2Input tr rec fc vcp)).1.weekly_salary_cost = 420 ∧
    (calculate_core_values (c2Input tr rec fc vcp)).1.weekly_total_salary_cost = 420 ∧
    (calculate_core_values (c2Input tr rec fc vcp)).1.total_salary_cost =
      420 * (52 / 12) ∧
    (calculate_core_values (c2Input tr rec fc vcp)).1.total_salary_cost = 1820 ∧
    (calculate_core_values (c2Input tr rec fc vcp)).1.total_sales =
      (1000 + 200) * (52 / 12) ∧
    (calculate_core_values (c2Input tr rec fc vcp)).1.total_sales = 5200 ∧
    (calculate_core_values (c2Input tr rec fc vcp)).1.profit =
      5200 - (calculate_core_values (c2Input tr rec fc vcp)).1.total_fixed_costs -
        (calculate_core_values (c2Input tr rec fc vcp)).1.total_variable_costs := by
  have ht : (tr.map (·.wage)).sum = 0 := wage_sum_zero tr htr
  have hr : (rec.map (·.wage)).sum = 0 := wage_sum_zero rec hrec
  unfold calculate_core_values c2Input
  dsimp only
  simp only [c2Input] at ht hr
  norm_num [ht, hr, stylistTotalEarnings, stylistServiceEarnings,
    stylistServiceCommission, stylistRetailCommission, stylistRetailShare,
    zeroAdditionalIncome, AdditionalIncome.total, weekly_to_monthly,
    max_def]

/-- Witness for C2 at the concrete empty rosters and all-zero cost
tables. -/
theorem worked_example_single_stylist_witness :
    weekly_to_monthly = 52 / 12 ∧
    (calculate_core_values (c2Input [] [] zeroFixedCosts zeroVCP)).1.weekly_retail_sales = 200 ∧
    stylistRetailShare 1000 200 ⟨"Stylist 1", 1000, 0⟩ = 200 ∧
    stylistServiceCommission 40 ⟨"Stylist 1", 1000, 0⟩ = 400 ∧
    stylistServiceEarnings 40 ⟨"Stylist 1", 1000, 0⟩ = 400 ∧
    stylistRetailCommission 1000 200 10 ⟨"Stylist 1", 1000, 0⟩ = 20 ∧
    stylistTotalEarnings 1000 200 40 10 ⟨"Stylist 1", 1000, 0⟩ = 420 ∧
    (calculate_core_values (c2Input [] [] zeroFixedCosts zeroVCP)).1.weekly_salary_cost = 420 ∧
    (calculate_core_values (c2Input [] [] zeroFixedCosts zeroVCP)).1.weekly_total_salary_cost = 420 ∧
    (calculate_core_values (c2Input [] [] zeroFixedCosts zeroVCP)).1.total_salary_cost =
      420 * (52 / 12) ∧
    (calculate_core_values (c2Input [] [] zeroFixedCosts zeroVCP)).1.total_salary_cost = 1820 ∧
    (calculate_core_values (c2Input [] [] zeroFixedCosts zeroVCP)).1.total_sales =
      (1000 + 200) * (52 / 12) ∧
    (calculate_core_values (c2Input [] [] zeroFixedCosts zeroVCP)).1.total_sales = 5200 ∧
    (calculate_core_values (c2Input [] [] zeroFixedCosts zeroVCP)).1.profit =
      5200 -
        (calculate_core_values (c2Input [] [] zeroFixedCosts zeroVCP)).1.total_fixed_costs -
        (calculate_core_values (c2Input [] [] zeroFixedCosts zeroVCP)).1.total_variable_costs :=
  worked_example_single_stylist [] [] zeroFixedCosts zeroVCP
    (by simp) (by simp)

/-- C3: for every input, the variable-cost breakdown assigns each of the
5 categories `base × percentage/100` — base monthly retail sales for
`Retail Commission` and `Retail Stock`, monthly service sales for
`Professional Stock`, total monthly sales for the rest — where the
percentages are the (post-feedback) `variable_costs_percentages`, and
`total_variable_costs` is the sum of the 5 values. -/
theorem variable_cost_breakdown_bases (st : SessionState) :
    (calculate_core_values st).1.variable_costs.wagesSalaries =
      (calculate_core_values st).1.total_sales *
        ((calculate_core_values st).2.variable_costs_percentages.wagesSalaries / 100) ∧
    (calculate_core_values st).1.variable_costs.retailCommission =
      (calculate_core_values st).1.retail_sales *
        ((calculate_core_values st).2.variable_costs_percentages.retailCommission / 100) ∧
    (calculate_core_values st).1.variable_costs.professionalStock =
      (calculate_core_values st).1.total_service_sales *
        ((calculate_core_values st).2.variable_costs_percentages.professionalStock / 100) ∧
    (calculate_core_values st).1.variable_costs.retailStock =
      (calculate_core_values st).1.retail_sales *
        ((calculate_core_values st).2.variable_costs_percentages.retailStock / 100) ∧
    (calculate_core_values st).1.variable_costs.royalties =
      (calculate_core_values st).1.total_sales *
        ((calculate_core_values st).2.variable_costs_percentages.royalties / 100) ∧
    (calculate_core_values st).1.total_variable_costs =
      (calculate_core_values st).1.variable_costs.wagesSalaries +
        (calculate_core_values st).1.variable_costs.retailCommission +
        (calculate_core_values st).1.variable_costs.professionalStock +
        (calculate_core_values st).1.variable_costs.retailStock +
        (calculate_core_values st).1.variable_costs.royalties := by
  unfold calculate_core_values
  dsimp only
  split_ifs <;> simp [VariableCosts.total]

/-- C4: the engine mutates at most the two derived
`variable_costs_percentages` entries; every other part of the session
state — stylists, retail percentage, fixed costs, the three
user-editable variable-cost percentages, salary settings, trainees,
receptionists, additional income — is returned unchanged. -/
theorem engine_frame_effect (st : SessionState) :
    (calculate_core_values st).2.stylists = st.stylists ∧
    (calculate_core_values st).2.retail_percentage = st.retail_percentage ∧
    (calculate_core_values st).2.fixed_costs = st.fixed_costs ∧
    (calculate_core_values st).2.salary_settings = st.salary_settings ∧
    (calculate_core_values st).2.trainees = st.trainees ∧
    (calculate_core_values st).2.receptionists = st.receptionists ∧
    (calculate_core_values st).2.additional_income = st.additional_income ∧
    (calculate_core_values st).2.variable_costs_percentages.professionalStock =
      st.variable_costs_percentages.professionalStock ∧
    (calculate_core_values st).2.variable_costs_percentages.retailStock =
      st.variable_costs_percentages.retailStock ∧
    (calculate_core_values st).2.variable_costs_percentages.royalties =
      st.variable_costs_percentages.royalties := by
  unfold calculate_core_values
  dsimp only
  split_ifs <;> simp

/-- An input with a single zero-sales stylist but 100 of monthly
additional income (everything else zero). -/
def zeroSalesWithIncome : SessionState :=
  ⟨[⟨"Stylist 1", 0, 0⟩], 0, zeroFixedCosts, zeroVCP, zeroSalarySettings,
    [], [], ⟨100, 0, 0, 0, 0, 0⟩⟩

/-- Counterexample to C5 as stated: every stylist's weekly sales is 0,
yet the profit margin the engine returns is 100, not 0 — additional
income keeps total monthly sales positive. -/
theorem zero_sales_margin_counterexample :
    (∀ s ∈ zeroSalesWithIncome.stylists, s.sales = 0) ∧
    (calculate_core_values zeroSalesWithIncome).1.profit_margin ≠ 0 := by
  constructor
  · simp [zeroSalesWithIncome]
  · norm_num [calculate_core_values, zeroSalesWithIncome, zeroFixedCosts,
      FixedCosts.total, zeroVCP, VariableCosts.total, AdditionalIncome.total,
      zeroSalarySettings, stylistTotalEarnings, stylistServiceEarnings,
      stylistServiceCommission, stylistRetailCommission, stylistRetailShare,
      weekly_to_monthly]

/-- C5 amended: when every stylist's weekly sales is 0 *and every
additional-income amount sums to 0*, the engine returns weekly retail
sales 0, a zero retail share for every stylist, and profit margin and
total wage cost percentage exactly 0, with no error (the function is
total). -/
theorem zero_sales_ratios_amended (st : SessionState)
    (hz : ∀ s ∈ st.stylists, s.sales = 0)
    (hai : st.additional_income.total = 0) :
    (calculate_core_values st).1.weekly_retail_sales = 0 ∧
    (∀ s ∈ st.stylists,
      stylistRetailShare (calculate_core_values st).1.weekly_service_sales
        ((calculate_core_values st).1.retail_sales / weekly_to_monthly) s = 0) ∧
    (calculate_core_values st).1.profit_margin = 0 ∧
    (calculate_core_values st).1.total_wage_cost_percentage = 0 := by
  have hsum : (st.stylists.map (·.sales)).sum = 0 := sales_sum_zero _ hz
  unfold calculate_core_values
  dsimp only
  simp [hsum, hai, stylistRetailShare]

/-- Witness for C5 at a concrete zero-sales, zero-additional-income
input (the app's fresh-user state). -/
theorem zero_sales_ratios_amended_witness :
    (calculate_core_values baseState).1.weekly_retail_sales = 0 ∧
    (∀ s ∈ baseState.stylists,
      stylistRetailShare (calculate_core_values baseState).1.weekly_service_sales
        ((calculate_core_values baseState).1.retail_sales / weekly_to_monthly) s = 0) ∧
    (calculate_core_values baseState).1.profit_margin = 0 ∧
    (calculate_core_values baseState).1.total_wage_cost_percentage = 0 :=
  zero_sales_ratios_amended baseState
    (by simp [baseState]) (by simp [baseState, zeroAdditionalIncome, AdditionalIncome.total])

/-- The fresh-user state with 100 of monthly `Marketing Support`
additional income. -/
def withIncomeState : SessionState :=
  { baseState with additional_income := ⟨100, 0, 0, 0, 0, 0⟩ }

/-- Counterexample to C6 as stated: the scenario saved from a snapshot
with 100 of additional income, loaded into a session whose additional
income has meanwhile been zeroed, does not reproduce the original
metrics — `additional_income` is not part of the stored scenario. -/
theorem scenario_roundtrip_counterexample :
    (calculate_core_values
        (scenario_load (scenario_save withIncomeState "") baseState)).1 ≠
      (calculate_core_values withIncomeState).1 := by
  intro h
  have h' := congrArg CoreValues.total_sales h
  revert h'
  norm_num [calculate_core_values, scenario_load, scenario_save,
    withIncomeState, baseState, zeroAdditionalIncome, AdditionalIncome.total,
    weekly_to_monthly]

/-- C6 amended: a saved scenario stores and restores the seven input
fields (stylists, retail percentage, trainees, receptionists, salary
settings, fixed costs, variable-cost percentages) field for field;
`additional_income` is not stored and keeps the loading session's
value, so the round trip is `compute`-equal exactly when the session's
additional income at load time equals its value at save time. -/
theorem scenario_roundtrip_amended (st cur : SessionState) (desc : String)
    (h : cur.additional_income = st.additional_income) :
    scenario_load (scenario_save st desc) cur = st ∧
    calculate_core_values (scenario_load (scenario_save st desc) cur) =
      calculate_core_values st := by
  have hload : scenario_load (scenario_save st desc) cur = st := by
    cases st
    cases cur
    simp_all [scenario_save, scenario_load]
  exact ⟨hload, by rw [hload]⟩

/-- Witness for C6 at a concrete snapshot and unchanged session. -/
theorem scenario_roundtrip_amended_witness :
    scenario_load (scenario_save withIncomeState "plan") withIncomeState =
      withIncomeState ∧
    calculate_core_values
        (scenario_load (scenario_save withIncomeState "plan") withIncomeState) =
      calculate_core_values withIncomeState :=
  scenario_roundtrip_amended withIncomeState withIncomeState "plan" rfl

/-- C7: scenario save is an upsert keyed by `(owner, name)`.  Creating
a 4th distinct scenario for an owner who already has 3 fails and leaves
the table unchanged; a save that reuses an existing name succeeds as an
overwrite regardless of count, does not change the table length, and
does not increase any owner's scenario count. -/
theorem save_scenario_capacity_upsert {α : Type} (db : List (ScenarioRow α))
    (uid : ℕ) (name desc : String) (data : α) :
    (ownerCount db uid = 3 → db.any (scenarioMatches uid name) = false →
      save_scenario db uid name desc data = (false, db)) ∧
    (db.any (scenarioMatches uid name) = true →
      (save_scenario db uid name desc data).1 = true ∧
      (save_scenario db uid name desc data).2.length = db.length ∧
      ∀ uid' : ℕ,
        ownerCount (save_scenario db uid name desc data).2 uid' =
          ownerCount db uid') := by
  constructor
  · intro hcount habsent
    unfold save_scenario
    rw [habsent]
    simp only [Bool.false_eq_true, if_false]
    rw [if_pos]
    exact le_of_eq (by simpa [ownerCount] using hcount.symm)
  · intro hpresent
    have hif : save_scenario db uid name desc data =
        (true, updateFirstScenario uid name desc data db) := by
      unfold save_scenario
      rw [hpresent]
      simp
    rw [hif]
    exact ⟨rfl, updateFirstScenario_length uid name desc data db,
      fun uid' => updateFirstScenario_ownerCount uid name desc data db uid'⟩

/-- A table of three scenarios owned by user 1, for the witness. -/
def threeScenarios : List (ScenarioRow Unit) :=
  [⟨1, "A", "", ()⟩, ⟨1, "B", "", ()⟩, ⟨1, "C", "", ()⟩]

/-- Witness for C7: on a table where user 1 owns exactly 3 scenarios, a
save under the fresh name `D` is rejected and leaves the table
unchanged, while a save under the existing name `A` succeeds without
growing the table or the owner's count. -/
theorem save_scenario_capacity_upsert_witness :
    save_scenario threeScenarios 1 "D" "new" () = (false, threeScenarios) ∧
    (save_scenario threeScenarios 1 "A" "overwrite" ()).1 = true ∧
    (save_scenario threeScenarios 1 "A" "overwrite" ()).2.length =
      threeScenarios.length ∧
    ownerCount (save_scenario threeScenarios 1 "A" "overwrite" ()).2 1 =
      ownerCount threeScenarios 1 := by
  refine ⟨(save_scenario_capacity_upsert threeScenarios 1 "D" "new" ()).1
    (by decide) (by decide), ?_, ?_, ?_⟩
  · exact ((save_scenario_capacity_upsert threeScenarios 1 "A" "overwrite" ()).2
      (by decide)).1
  · exact ((save_scenario_capacity_upsert threeScenarios 1 "A" "overwrite" ()).2
      (by decide)).2.1
  · exact ((save_scenario_capacity_upsert threeScenarios 1 "A" "overwrite" ()).2
      (by decide)).2.2 1

/-- C8: the undo stack never exceeds 10 entries (a push onto a stack of
at most 10 leaves at most 10, the oldest being dropped when full);
starting empty, 11 pushes leave exactly the snapshots of the last 10
pushes in order (the 1st push is evicted); and undo on an empty stack
reports `False` and changes nothing rather than failing. -/
theorem history_buffer_capacity (stack : List UndoSnapshot)
    (st cur s1 s2 s3 s4 s5 s6 s7 s8 s9 s10 s11 : SessionState)
    (h : stack.length ≤ 10) :
    (save_state_for_undo stack st).length ≤ 10 ∧
    List.foldl save_state_for_undo []
        [s1, s2, s3, s4, s5, s6, s7, s8, s9, s10, s11] =
      [undoSnapshotOf s2, undoSnapshotOf s3, undoSnapshotOf s4,
        undoSnapshotOf s5, undoSnapshotOf s6, undoSnapshotOf s7,
        undoSnapshotOf s8, undoSnapshotOf s9, undoSnapshotOf s10,
        undoSnapshotOf s11] ∧
    undo_last_change [] cur = (false, [], cur) := by
  refine ⟨?_, ?_, rfl⟩
  · unfold save_state_for_undo
    split_ifs with hfull
    · simp only [List.length_append, List.length_drop, List.length_cons,
        List.length_nil]
      omega
    · simp only [List.length_append, List.length_cons, List.length_nil]
      omega
  · simp [save_state_for_undo, List.foldl]

/-- Witness for C8 at the empty stack and eleven copies of the
fresh-user state. -/
theorem history_buffer_capacity_witness :
    (save_state_for_undo [] baseState).length ≤ 10 ∧
    List.foldl save_state_for_undo []
        [baseState, baseState, baseState, baseState, baseState, baseState,
          baseState, baseState, baseState, baseState, baseState] =
      [undoSnapshotOf baseState, undoSnapshotOf baseState,
        undoSnapshotOf baseState, undoSnapshotOf baseState,
        undoSnapshotOf baseState, undoSnapshotOf baseState,
        undoSnapshotOf baseState, undoSnapshotOf baseState,
        undoSnapshotOf baseState, undoSnapshotOf baseState] ∧
    undo_last_change [] baseState = (false, [], baseState) :=
  history_buffer_capacity [] baseState baseState baseState baseState baseState
    baseState baseState baseState baseState baseState baseState baseState
    baseState (by simp)

/-- Counterexample to C9 as stated: push a snapshot whose additional
income is 100, zero the session's additional income, then undo — the
restored session does not equal the pushed snapshot, because
`save_state_for_undo` does not capture `additional_income`. -/
theorem undo_additional_income_counterexample :
    (undo_last_change (save_state_for_undo [] withIncomeState) baseState).2.2 ≠
      withIncomeState := by
  intro h
  have h' := congrArg (fun s => s.additional_income.marketingSupport) h
  revert h'
  norm_num [undo_last_change, save_state_for_undo, restoreSnapshot,
    undoSnapshotOf, withIncomeState, baseState, zeroAdditionalIncome]

/-- C9 amended: a pop immediately after a push reports success and
restores the seven captured fields — stylists, retail percentage, fixed
costs, variable-cost percentages, salary settings, trainees,
receptionists — to their push-time values, while `additional_income`
keeps the session's current (pop-time) value because the undo snapshot
does not include it. -/
theorem undo_restores_pushed_fields (stack : List UndoSnapshot)
    (pushed cur : SessionState) :
    (undo_last_change (save_state_for_undo stack pushed) cur).1 = true ∧
    (undo_last_change (save_state_for_undo stack pushed) cur).2.2.stylists =
      pushed.stylists ∧
    (undo_last_change (save_state_for_undo stack pushed) cur).2.2.retail_percentage =
      pushed.retail_percentage ∧
    (undo_last_change (save_state_for_undo stack pushed) cur).2.2.fixed_costs =
      pushed.fixed_costs ∧
    (undo_last_change (save_state_for_undo stack pushed) cur).2.2.variable_costs_percentages =
      pushed.variable_costs_percentages ∧
    (undo_last_change (save_state_for_undo stack pushed) cur).2.2.salary_settings =
      pushed.salary_settings ∧
    (undo_last_change (save_state_for_undo stack pushed) cur).2.2.trainees =
      pushed.trainees ∧
    (undo_last_change (save_state_for_undo stack pushed) cur).2.2.receptionists =
      pushed.receptionists ∧
    (undo_last_change (save_state_for_undo stack pushed) cur).2.2.additional_income =
      cur.additional_income := by
  have hlast : (save_state_for_undo stack pushed).getLast? =
      some (undoSnapshotOf pushed) := by
    unfold save_state_for_undo
    exact List.getLast?_concat _
  unfold undo_last_change
  rw [hlast]
  simp [restoreSnapshot, undoSnapshotOf]

/-- An input with one stylist (weekly sales 12), retail percentage 100,
a 50% `Professional Stock` percentage, everything else zero. -/
def profStockInput : SessionState :=
  ⟨[⟨"Stylist 1", 12, 0⟩], 100, zeroFixedCosts, ⟨0, 0, 50, 0, 0⟩,
    zeroSalarySettings, [], [], zeroAdditionalIncome⟩

/-- Counterexample to C10 as stated: at an input with zero additional
income, calling `calculate_profit` with the engine's monthly service
sales, the same retail percentage, the same fixed costs and the
engine's (post-feedback) variable-cost percentage map does not return
the engine's profit — `calculate_profit` bases `Professional Stock` on
total sales, the engine on service sales (52 versus 78 here). -/
theorem calculate_profit_prof_stock_counterexample :
    profStockInput.additional_income.total = 0 ∧
    calculate_profit (calculate_core_values profStockInput).1.total_service_sales
        profStockInput.retail_percentage profStockInput.fixed_costs
        (calculate_core_values profStockInput).2.variable_costs_percentages ≠
      (calculate_core_values profStockInput).1.profit := by
  constructor
  · simp [profStockInput, zeroAdditionalIncome, AdditionalIncome.total]
  · norm_num [calculate_profit, calculate_core_values, profStockInput,
      zeroFixedCosts, FixedCosts.total, zeroSalarySettings, VariableCosts.total,
      zeroAdditionalIncome, AdditionalIncome.total, stylistTotalEarnings,
      stylistServiceEarnings, stylistServiceCommission, stylistRetailCommission,
      stylistRetailShare, weekly_to_monthly]

/-- C10 amended: for every input with zero additional income *and a
zero `Professional Stock` percentage*, `calculate_profit` applied to
the engine's monthly service sales, the input's retail percentage, the
input's fixed costs and the engine's post-feedback variable-cost
percentage map returns exactly the engine's profit (all other
categories already agree on their base). -/
theorem calculate_profit_refines_engine (st : SessionState)
    (hai : st.additional_income.total = 0)
    (hps : st.variable_costs_percentages.professionalStock = 0) :
    calculate_profit (calculate_core_values st).1.total_service_sales
        st.retail_percentage st.fixed_costs
        (calculate_core_values st).2.variable_costs_percentages =
      (calculate_core_values st).1.profit := by
  unfold calculate_core_values calculate_profit
  dsimp only
  rw [hai]
  split_ifs <;>
    · dsimp only [VariableCosts.total]
      rw [hps]
      ring

/-- An input with one stylist (weekly sales 12), retail percentage 100,
a 25% `Royalties/Franchise Fee` percentage, everything else zero. -/
def royaltiesInput : SessionState :=
  ⟨[⟨"Stylist 1", 12, 0⟩], 100, zeroFixedCosts, ⟨0, 0, 0, 0, 25⟩,
    zeroSalarySettings, [], [], zeroAdditionalIncome⟩

/-- Witness for C10 at the single-stylist input with a nonzero
`Royalties/Franchise Fee` percentage (zero additional income, zero
`Professional Stock`). -/
theorem calculate_profit_refines_engine_witness :
    royaltiesInput.additional_income.total = 0 ∧
    royaltiesInput.variable_costs_percentages.professionalStock = 0 ∧
    calculate_profit (calculate_core_values royaltiesInput).1.total_service_sales
        royaltiesInput.retail_percentage royaltiesInput.fixed_costs
        (calculate_core_values royaltiesInput).2.variable_costs_percentages =
      (calculate_core_values royaltiesInput).1.profit := by
  refine ⟨?_, ?_, calculate_profit_refines_engine royaltiesInput ?_ ?_⟩ <;>
    simp [royaltiesInput, zeroAdditionalIncome, AdditionalIncome.total]

end Salon
